import Mathlib

/-!
Verification development for the AUTOMATE_BLOGPOST repository.

The repository bundles two applications:
* a task tracker (Express + Prisma), embedded below in namespace `TaskApp`
  (from `src/backend/src/modules/tasks/service.ts` and
  `src/backend/src/modules/auth/service.ts`), and
* a blog publishing tool (Express + Mongoose), embedded in namespace `BlogApp`
  (from the Post model, the posts router and the Blogspot router).

Database tables/collections are embedded as Lean lists of records; Prisma and
Mongoose query objects are embedded as executable predicates; machine dates
are integers (milliseconds); fallible handlers return `Except ApiErr`.
-/

/-- Error shape thrown by the services: a message together with an HTTP
status code (`ApiError` in the task app, the status/json pairs of the blog
app routers). -/
structure ApiErr where
  message : String
  status : Nat
deriving DecidableEq, Repr

/-- ASCII lowercasing of one character, the behaviour of JavaScript
`String.prototype.toLowerCase` on the ASCII range used by the embedded
strings (emails, keywords). -/
def jsCharToLower (c : Char) : Char :=
  if 65 ≤ c.toNat ∧ c.toNat ≤ 90 then Char.ofNat (c.toNat + 32) else c

/-- Lowercasing of a whole string, character by character. -/
def jsToLower (s : String) : String :=
  ⟨s.data.map jsCharToLower⟩

/-- Case-insensitive prefix test on character lists: does the second list
start with the first, comparing characters after ASCII lowercasing. -/
def lowerPrefixOf : List Char → List Char → Bool
  | [], _ => true
  | _ :: _, [] => false
  | n :: ns, c :: cs => (jsCharToLower c == jsCharToLower n) && lowerPrefixOf ns cs

/-- Case-insensitive substring test on character lists, the semantics of
the Prisma `contains` filter with `mode: insensitive`. -/
def lowerSubstrOf (needle : List Char) : List Char → Bool
  | [] => needle.isEmpty
  | c :: cs => lowerPrefixOf needle (c :: cs) || lowerSubstrOf needle cs

/-- Case-insensitive `contains` on strings. -/
def containsCI (hay needle : String) : Bool :=
  lowerSubstrOf needle.data hay.data

namespace TaskApp

/-- Task status enum of the Prisma schema. -/
inductive TaskStatus
  | TODO
  | IN_PROGRESS
  | IN_REVIEW
  | COMPLETED
  | CANCELLED
deriving DecidableEq, Repr

/-- Task priority enum of the Prisma schema. -/
inductive TaskPriority
  | LOW
  | MEDIUM
  | HIGH
  | URGENT
deriving DecidableEq, Repr

/-- Project member role enum of the Prisma schema. -/
inductive MemberRole
  | OWNER
  | ADMIN
  | MEMBER
deriving DecidableEq, Repr

/-- One row of the project membership relation. -/
structure ProjectMember where
  userId : Nat
  role : MemberRole
deriving DecidableEq, Repr

/-- A Project row: owner plus membership list (the fields the task queries
touch). -/
structure Project where
  id : Nat
  ownerId : Nat
  members : List ProjectMember
deriving DecidableEq, Repr

/-- A Task row with the fields read or written by the task service. -/
structure Task where
  id : Nat
  title : String
  description : String
  status : TaskStatus
  priority : TaskPriority
  creatorId : Nat
  assigneeId : Option Nat
  projectId : Nat
  dueDate : Option Int
  estimatedHours : Option Int
  actualHours : Option Int
  completedAt : Option Int
  createdAt : Int
deriving DecidableEq, Repr

/-- The `dueDate` query parameter of `getTasks`. -/
inductive DueBucket
  | overdue
  | today
  | this_week
  | this_month
deriving DecidableEq, Repr

/-- The `TaskFilters` input of `getTasks`; absent optional filters are
`none` (in the source, absent or empty-string query parameters are falsy
and skipped). Sort fields are not modelled: no claim concerns ordering. -/
structure TaskFilters where
  status : Option TaskStatus := none
  priority : Option TaskPriority := none
  assigneeId : Option Nat := none
  projectId : Option Nat := none
  search : Option String := none
  dueDate : Option DueBucket := none
  page : Option Nat := none
  limit : Option Nat := none
deriving Repr

/-- Millisecond length of a day, as in `24 * 60 * 60 * 1000`. -/
def dayMs : Int := 24 * 60 * 60 * 1000

/-- The date anchors computed by `getTasks` from `new Date()`: `today` is
the local midnight timestamp; `monthEnd` abstracts the calendar computation
`new Date(year, month + 1, day)`. -/
structure DateCtx where
  today : Int
  monthEnd : Int
deriving Repr

/-- The `status` member of the built Prisma where object: unset, an
equality test, or a `notIn` list. -/
inductive StatusCond
  | anyStatus
  | eqStatus (s : TaskStatus)
  | notInStatus (l : List TaskStatus)
deriving DecidableEq, Repr

/-- The `dueDate` member of the built where object: unset, `lt`, or a
`gte`/`lt` half-open range. -/
inductive DueCond
  | anyDue
  | ltDue (t : Int)
  | rangeDue (lo hi : Int)
deriving DecidableEq, Repr

/-- The `OR` member of the built where object. It starts as the visibility
restriction and, exactly as in the source, is a single assignable slot:
the search branch overwrites it. -/
inductive OrCond
  | visibility (userId : Nat)
  | searchText (q : String)
deriving DecidableEq, Repr

/-- The Prisma where object built by `getTasks` lines 57 to 118, one field
per member the code assigns. -/
structure TaskWhere where
  orCond : OrCond
  statusCond : StatusCond
  priorityCond : Option TaskPriority
  assigneeCond : Option Nat
  projectCond : Option Nat
  dueCond : DueCond
deriving DecidableEq, Repr

/-- Builds the where object exactly in source order: visibility OR first,
then each optional filter assigns its member; `search` assigns `where.OR`
(overwriting the visibility clause); a `dueDate` bucket assigns
`where.dueDate` and, for `overdue`, also `where.status`. -/
def buildWhere (userId : Nat) (f : TaskFilters) (d : DateCtx) : TaskWhere :=
  let w : TaskWhere :=
    { orCond := .visibility userId, statusCond := .anyStatus,
      priorityCond := none, assigneeCond := none, projectCond := none,
      dueCond := .anyDue }
  let w := match f.status with
    | some s => { w with statusCond := .eqStatus s }
    | none => w
  let w := match f.priority with
    | some p => { w with priorityCond := some p }
    | none => w
  let w := match f.assigneeId with
    | some a => { w with assigneeCond := some a }
    | none => w
  let w := match f.projectId with
    | some p => { w with projectCond := some p }
    | none => w
  let w := match f.search with
    | some q => { w with orCond := .searchText q }
    | none => w
  match f.dueDate with
  | none => w
  | some .overdue =>
      { w with dueCond := .ltDue d.today,
               statusCond := .notInStatus [.COMPLETED, .CANCELLED] }
  | some .today => { w with dueCond := .rangeDue d.today (d.today + dayMs) }
  | some .this_week =>
      { w with dueCond := .rangeDue d.today (d.today + 7 * dayMs) }
  | some .this_month => { w with dueCond := .rangeDue d.today d.monthEnd }

/-- Lookup of the project a task belongs to (the Prisma relation walk
`task.project`). -/
def projectLookup (projects : List Project) (pid : Nat) : Option Project :=
  projects.find? (fun p => p.id == pid)

/-- Membership test of the relation filter
`OR: [ownerId, members some userId]` on a project. -/
def projectVisible (userId : Nat) (p : Project) : Bool :=
  p.ownerId == userId || p.members.any (fun m => m.userId == userId)

/-- The visibility restriction of the task queries: the user is the
creator, the assignee, or the owner or a member of the project. -/
def visibleTo (projects : List Project) (userId : Nat) (t : Task) : Bool :=
  t.creatorId == userId || t.assigneeId == some userId ||
    (match projectLookup projects t.projectId with
     | some p => projectVisible userId p
     | none => false)

/-- Semantics of the `status` member of the where object. -/
def statusMatches : StatusCond → TaskStatus → Bool
  | .anyStatus, _ => true
  | .eqStatus s, st => st == s
  | .notInStatus l, st => decide (st ∉ l)

/-- Semantics of the `dueDate` member of the where object; a row with a
null `dueDate` matches neither `lt` nor a range. -/
def dueMatches : DueCond → Option Int → Bool
  | .anyDue, _ => true
  | .ltDue t, some due => due < t
  | .ltDue _, none => false
  | .rangeDue lo hi, some due => lo ≤ due && due < hi
  | .rangeDue _ _, none => false

/-- Semantics of the `OR` member of the where object: either the
visibility restriction or the free-text search over title and
description. -/
def orMatches (projects : List Project) : OrCond → Task → Bool
  | .visibility userId, t => visibleTo projects userId t
  | .searchText q, t => containsCI t.title q || containsCI t.description q

/-- Row semantics of the whole where object: the conjunction of its
members, as Prisma conjoins the top-level fields of a where object. -/
def taskMatches (projects : List Project) (w : TaskWhere) (t : Task) : Bool :=
  orMatches projects w.orCond t &&
  statusMatches w.statusCond t.status &&
  (match w.priorityCond with | some p => t.priority == p | none => true) &&
  (match w.assigneeCond with | some a => t.assigneeId == some a | none => true) &&
  (match w.projectCond with | some p => t.projectId == p | none => true) &&
  dueMatches w.dueCond t.dueDate

/-- Pagination block returned by `getTasks`. -/
structure Pagination where
  page : Nat
  limit : Nat
  total : Nat
  totalPages : Nat
  hasNextPage : Bool
  hasPrevPage : Bool
deriving DecidableEq, Repr

/-- Executable form of `Math.ceil(total / limit)` on naturals with a
positive divisor. -/
def natCeilDiv (a b : Nat) : Nat := (a + b - 1) / b

/-- The pagination object of `getTasks` lines 155 to 162. -/
def mkPagination (page limit total : Nat) : Pagination :=
  { page := page, limit := limit, total := total,
    totalPages := natCeilDiv total limit,
    hasNextPage := decide (page < natCeilDiv total limit),
    hasPrevPage := decide (1 < page) }

/-- Result shape of `getTasks`. -/
structure TasksResult where
  tasks : List Task
  pagination : Pagination
deriving DecidableEq, Repr

/-- TaskService.getTasks: builds the where object, filters the task table
with it, applies `skip = (page - 1) * limit` and `take = limit`, and
returns the page together with the pagination block computed from the
count query. Ordering (`orderBy`) is not modelled: no claim concerns it,
and drop/take is applied to the stored order. -/
def getTasks (db : List Task) (projects : List Project) (userId : Nat)
    (f : TaskFilters) (d : DateCtx) : TasksResult :=
  let page := f.page.getD 1
  let limit := f.limit.getD 20
  let w := buildWhere userId f d
  let matched := db.filter (taskMatches projects w)
  let skip := (page - 1) * limit
  { tasks := (matched.drop skip).take limit,
    pagination := mkPagination page limit matched.length }

/-- The `UpdateTaskData` input of `updateTask`; absent fields are `none`
(undefined in the source, ignored by the Prisma update). -/
structure UpdateTaskData where
  title : Option String := none
  description : Option String := none
  status : Option TaskStatus := none
  priority : Option TaskPriority := none
  assigneeId : Option Nat := none
  dueDate : Option Int := none
  estimatedHours : Option Int := none
  actualHours : Option Int := none
deriving Repr

/-- Access check of `updateTask` lines 317 to 333: creator, assignee, or
project owner, or a project member whose role is OWNER or ADMIN. -/
def canUpdate (projects : List Project) (userId : Nat) (t : Task) : Bool :=
  t.creatorId == userId || t.assigneeId == some userId ||
    (match projectLookup projects t.projectId with
     | some p =>
         p.ownerId == userId ||
           p.members.any (fun m =>
             m.userId == userId && (m.role == .OWNER || m.role == .ADMIN))
     | none => false)

/-- The completion handling and field spread of `updateTask` lines 339 to
345 and the Prisma update: `completedAt` is stamped when the incoming
status equals COMPLETED and the stored one does not, nulled when the
incoming status differs from COMPLETED (including an absent status, which
in JavaScript is not equal to the string COMPLETED) while the stored one
is COMPLETED, and otherwise kept; every other present field overwrites,
absent fields are ignored. -/
def applyTaskUpdate (existing : Task) (data : UpdateTaskData) (now : Int) : Task :=
  let completedAt :=
    if data.status == some .COMPLETED && !(existing.status == .COMPLETED) then
      some now
    else if !(data.status == some .COMPLETED) && existing.status == .COMPLETED then
      none
    else existing.completedAt
  { existing with
    title := data.title.getD existing.title,
    description := data.description.getD existing.description,
    status := data.status.getD existing.status,
    priority := data.priority.getD existing.priority,
    assigneeId := match data.assigneeId with
      | some a => some a
      | none => existing.assigneeId,
    dueDate := match data.dueDate with
      | some due => some due
      | none => existing.dueDate,
    estimatedHours := match data.estimatedHours with
      | some e => some e
      | none => existing.estimatedHours,
    actualHours := match data.actualHours with
      | some a => some a
      | none => existing.actualHours,
    completedAt := completedAt }

/-- Assignee validation of `updateTask` lines 348 to 362: a changed
assignee must be the owner or a member of the project of the task. -/
def assigneeAllowed (projects : List Project) (t : Task)
    (data : UpdateTaskData) : Bool :=
  match data.assigneeId with
  | none => true
  | some a =>
      if some a == t.assigneeId then true
      else match projectLookup projects t.projectId with
        | some p => projectVisible a p
        | none => false

/-- TaskService.updateTask over one stored task: 404 when the access check
fails, 400 when the assignee validation fails, otherwise the updated
task. -/
def updateTask (projects : List Project) (existing : Task)
    (data : UpdateTaskData) (userId : Nat) (now : Int) : Except ApiErr Task :=
  if !(canUpdate projects userId existing) then
    .error ⟨"Task not found or access denied", 404⟩
  else if !(assigneeAllowed projects existing data) then
    .error ⟨"Assignee does not have access to this project", 400⟩
  else
    .ok (applyTaskUpdate existing data now)

/-- A User row with the fields the auth service reads. -/
structure AuthUser where
  id : Nat
  email : String
  name : String
  role : String
  avatar : Option String
  isActive : Bool
  passwordHash : String
deriving DecidableEq, Repr

/-- A RefreshToken row: opaque token string, owning user, expiry. -/
structure StoredRefreshToken where
  id : Nat
  token : String
  userId : Nat
  expiresAt : Int
deriving DecidableEq, Repr

/-- The tables the auth service touches. -/
structure AuthDB where
  users : List AuthUser
  tokens : List StoredRefreshToken
deriving DecidableEq, Repr

/-- Payload of a signed access token; signing is delegated to the JWT
library, so the embedding keeps the payload itself. -/
structure AccessTokenPayload where
  id : Nat
  email : String
  role : String
deriving DecidableEq, Repr

/-- The token pair returned by login and refresh. -/
structure AuthTokens where
  accessToken : AccessTokenPayload
  refreshToken : String
deriving DecidableEq, Repr

/-- Refresh token lifetime: `7 * 24 * 60 * 60 * 1000` milliseconds. -/
def refreshTtl : Int := 7 * 24 * 60 * 60 * 1000

/-- The `findUnique({ where: { email: email.toLowerCase() } })` lookup
shared by signup and login. -/
def findUserByLoweredEmail (db : AuthDB) (email : String) : Option AuthUser :=
  db.users.find? (fun u => u.email == jsToLower email)

/-- Input of signup. -/
structure SignupData where
  name : String
  email : String
  password : String
deriving Repr

/-- AuthService.signup: rejects when a user with the lowercased email
exists, otherwise creates the user with the lowercased email and the
bcrypt hash (the hash function is passed in, as bcrypt is an external
library), stores a fresh refresh token row, and returns user and tokens.
Fresh ids and the random uuid token are passed in by the caller. -/
def signup (db : AuthDB) (d : SignupData) (hash : String → String)
    (newUserId newTokenRowId : Nat) (newRefreshToken : String) (now : Int) :
    Except ApiErr (AuthUser × AuthTokens × AuthDB) :=
  match findUserByLoweredEmail db d.email with
  | some _ => .error ⟨"User with this email already exists", 400⟩
  | none =>
      let user : AuthUser :=
        { id := newUserId, email := jsToLower d.email, name := d.name,
          role := "USER", avatar := none, isActive := true,
          passwordHash := hash d.password }
      let tokenRow : StoredRefreshToken :=
        { id := newTokenRowId, token := newRefreshToken,
          userId := newUserId, expiresAt := now + refreshTtl }
      .ok (user,
        { accessToken := ⟨user.id, user.email, user.role⟩,
          refreshToken := newRefreshToken },
        { users := db.users ++ [user], tokens := db.tokens ++ [tokenRow] })

/-- AuthService.login: looks the user up by the lowercased email, rejects
missing users, deactivated accounts, and failed bcrypt comparisons with
401, otherwise stores a fresh refresh token row and returns the pair. The
bcrypt comparison is passed in as a function. -/
def login (db : AuthDB) (email password : String)
    (verify : String → String → Bool) (newTokenRowId : Nat)
    (newRefreshToken : String) (now : Int) :
    Except ApiErr (AuthUser × AuthTokens × AuthDB) :=
  match findUserByLoweredEmail db email with
  | none => .error ⟨"Invalid email or password", 401⟩
  | some u =>
      if !u.isActive then .error ⟨"Account has been deactivated", 401⟩
      else if !(verify password u.passwordHash) then
        .error ⟨"Invalid email or password", 401⟩
      else
        .ok (u,
          { accessToken := ⟨u.id, u.email, u.role⟩,
            refreshToken := newRefreshToken },
          { db with tokens := db.tokens ++
              [{ id := newTokenRowId, token := newRefreshToken,
                 userId := u.id, expiresAt := now + refreshTtl }] })

/-- AuthService.refreshToken: looks the presented token up; unknown tokens
fail 401; expired tokens are deleted and fail 401; a deactivated owner
fails 401; otherwise the stored row is updated in place with the fresh
uuid token and a new expiry, and the new pair is returned. The database
state after the call is always returned alongside the result. A token row
whose owning user row is missing cannot occur under the foreign key
constraint; that branch returns 500. -/
def refreshTokenOp (db : AuthDB) (tok : String) (now : Int)
    (newRefreshToken : String) : Except ApiErr AuthTokens × AuthDB :=
  match db.tokens.find? (fun r => r.token == tok) with
  | none => (.error ⟨"Invalid refresh token", 401⟩, db)
  | some st =>
      if st.expiresAt < now then
        (.error ⟨"Refresh token expired", 401⟩,
         { db with tokens := db.tokens.filter (fun r => !(r.id == st.id)) })
      else
        match db.users.find? (fun u => u.id == st.userId) with
        | none => (.error ⟨"Internal error", 500⟩, db)
        | some u =>
            if !u.isActive then
              (.error ⟨"Account has been deactivated", 401⟩, db)
            else
              (.ok { accessToken := ⟨u.id, u.email, u.role⟩,
                     refreshToken := newRefreshToken },
               { db with tokens := db.tokens.map (fun r =>
                   if r.id == st.id then
                     { r with token := newRefreshToken,
                              expiresAt := now + refreshTtl }
                   else r) })

end TaskApp

namespace BlogApp

/-- Post status enum of the Mongoose schema. -/
inductive PostStatus
  | draft
  | published
  | scheduled
deriving DecidableEq, Repr

/-- The `blogspot` subdocument of a Post. -/
structure BlogspotInfo where
  postId : Option String
  publishedAt : Option Int
  url : Option String
  lastSyncAt : Option Int
deriving DecidableEq, Repr

/-- A Post document with the fields the routers and hooks read or write
(SEO, AI provenance, monetization and analytics subdocuments are omitted:
no claim touches them, except the affiliate links which live on the user
in the Blogspot router). -/
structure Post where
  userId : Nat
  title : String
  content : String
  tags : List String
  status : PostStatus
  publishedAt : Option Int
  scheduledFor : Option Int
  blogspot : Option BlogspotInfo
deriving DecidableEq, Repr

/-- The pre-save hook of the Post schema that stamps `publishedAt`: when
the status path was modified, the new status is published, and
`publishedAt` is unset (falsy), it is set to the current time; otherwise
the document is saved unchanged. `statusModified` is the Mongoose
`isModified` flag for the status path. -/
def presavePublishedAt (statusModified : Bool) (p : Post) (now : Int) : Post :=
  if statusModified && p.status == .published && p.publishedAt == none then
    { p with publishedAt := some now }
  else p

/-- Saving a post whose previous stored status is `oldStatus`: the hook
runs with the modified flag derived from whether the status path changed. -/
def savePost (oldStatus : PostStatus) (p : Post) (now : Int) : Post :=
  presavePublishedAt (!(p.status == oldStatus)) p now

/-- Truthiness of an optional string in JavaScript: null, undefined and
the empty string are falsy. -/
def jsTruthyStr : Option String → Bool
  | none => false
  | some s => !(s == "")

/-- The status chosen by POST /api/posts lines 177 to 181: scheduled when
a scheduledFor timestamp is supplied and lies strictly in the future,
draft otherwise. -/
def createPostStatus (scheduledFor : Option Int) (now : Int) : PostStatus :=
  match scheduledFor with
  | some t => if t > now then .scheduled else .draft
  | none => .draft

/-- POST /api/posts: builds the new document with the chosen status and
saves it (a fresh document has every path modified, so the hook runs with
the flag set). -/
def createPost (userId : Nat) (title content : String) (tags : List String)
    (scheduledFor : Option Int) (now : Int) : Post :=
  let p : Post :=
    { userId := userId, title := title, content := content,
      tags := tags.map (fun t => jsToLower t),
      status := createPostStatus scheduledFor now,
      publishedAt := none, scheduledFor := scheduledFor, blogspot := none }
  presavePublishedAt true p now

/-- POST /api/posts/:id/publish over a found post: 403 for a requester who
does not own it, 400 when it is already published, otherwise status is set
to published, `publishedAt` is stamped, and the document is saved. -/
def publishRoute (requesterId : Nat) (p : Post) (now : Int) :
    Except ApiErr Post :=
  if !(p.userId == requesterId) then
    .error ⟨"Not authorized to publish this post", 403⟩
  else if p.status == .published then
    .error ⟨"Post is already published", 400⟩
  else
    .ok (savePost p.status { p with status := .published, publishedAt := some now } now)

/-- POST /api/posts/:id/unpublish over a found post: 403 for a requester
who does not own it, 400 when it is not published, otherwise status is set
back to draft and `publishedAt` is cleared. -/
def unpublishRoute (requesterId : Nat) (p : Post) (now : Int) :
    Except ApiErr Post :=
  if !(p.userId == requesterId) then
    .error ⟨"Not authorized to unpublish this post", 403⟩
  else if !(p.status == .published) then
    .error ⟨"Post is not published", 400⟩
  else
    .ok (savePost p.status { p with status := .draft, publishedAt := none } now)

/-- Outcome of DELETE /api/posts/:id over a found post. -/
inductive DeleteOutcome
  | deleted
  | rejected (e : ApiErr)
deriving DecidableEq, Repr

/-- DELETE /api/posts/:id over a found post: 403 for a requester who does
not own it; 400 when the post is published AND carries a truthy Blogspot
post id; otherwise the document is removed. -/
def deleteRoute (requesterId : Nat) (p : Post) : DeleteOutcome :=
  if !(p.userId == requesterId) then
    .rejected ⟨"Not authorized to delete this post", 403⟩
  else if p.status == .published &&
      jsTruthyStr (p.blogspot.bind (fun b => b.postId)) then
    .rejected ⟨"Cannot delete published post. Unpublish it first.", 400⟩
  else
    .deleted

/-- The local post update of POST /api/blogspot/publish lines 308 to 318,
after the provider call succeeded: status is forced to published,
`publishedAt` is stamped with the current time with no guard on the prior
state, the Blogspot subdocument is filled from the provider response, and
the document is saved. -/
def blogspotPublishUpdate (p : Post) (now : Int) (providerPostId : String)
    (providerPublishedAt : Int) (providerUrl : String) : Post :=
  savePost p.status
    { p with
        status := .published,
        publishedAt := some now,
        blogspot := some { postId := some providerPostId,
                           publishedAt := some providerPublishedAt,
                           url := some providerUrl,
                           lastSyncAt := some now } } now

/-- Word characters of the JavaScript regex class backslash-w:
ASCII letters, digits and underscore. -/
def isWordChar (c : Char) : Bool :=
  (65 ≤ c.toNat && c.toNat ≤ 90) || (97 ≤ c.toNat && c.toNat ≤ 122) ||
    (48 ≤ c.toNat && c.toNat ≤ 57) || c == '_'

/-- Wordness of the first character of a list; past the end of the string
counts as a non-word character for the boundary assertion. -/
def headIsWord : List Char → Bool
  | [] => false
  | c :: _ => isWordChar c

/-- One candidate match of the global case-insensitive regex built from a
keyword with a word-boundary assertion on each side: the keyword is a
case-insensitive prefix of the remaining input, the boundary before the
match holds (the wordness of the previous character differs from that of
the first keyword character), and the boundary after the match holds (the
wordness of the last keyword character differs from that of the following
character). -/
def matchOk (kw : List Char) (prevWord : Bool) (s : List Char) : Bool :=
  lowerPrefixOf kw s && (prevWord != headIsWord kw) &&
    (headIsWord kw.reverse != headIsWord (s.drop kw.length))

/-- Left-to-right scan of `String.prototype.replace` with a global regex:
at each position, if the boundary-checked keyword matches, the replacement
is emitted and scanning resumes after the matched text (which is never
rescanned); otherwise the character is copied. `prevWord` carries the
wordness of the previously consumed character for the boundary assertion.
The fuel argument only forces structural recursion: every step consumes at
least one input character, so with fuel equal to the input length the
first equation is never taken. -/
def replScan (kw repl : List Char) : Nat → Bool → List Char → List Char
  | 0, _, s => s
  | _ + 1, _, [] => []
  | fuel + 1, prevWord, c :: cs =>
    if !kw.isEmpty && matchOk kw prevWord (c :: cs) then
      repl ++ replScan kw repl fuel (headIsWord kw.reverse)
        (List.drop kw.length (c :: cs))
    else
      c :: replScan kw repl fuel (isWordChar c) cs

/-- The replacement performed for one affiliate link:
`content.replace(new RegExp(boundary + keyword + boundary, gi), anchor)`. -/
def replaceKeywordCI (keyword replacement content : String) : String :=
  ⟨replScan keyword.data replacement.data content.data.length false content.data⟩

/-- One configured affiliate link of the user settings. -/
structure AffiliateLink where
  keyword : String
  url : String
deriving DecidableEq, Repr

/-- The anchor tag substituted for each matched keyword occurrence; note
the anchor text is the configured keyword, not the matched text. -/
def affiliateAnchor (l : AffiliateLink) : String :=
  "<a href=\"" ++ l.url ++ "\" target=\"_blank\" rel=\"nofollow sponsored\">"
    ++ l.keyword ++ "</a>"

/-- The affiliate pass of POST /api/blogspot/publish lines 281 to 286: the
replacement is folded over the configured links in order. -/
def applyAffiliateLinks (links : List AffiliateLink) (content : String) : String :=
  links.foldl (fun c l => replaceKeywordCI l.keyword (affiliateAnchor l) c) content

end BlogApp

namespace TaskApp

/-- Example task for the search claim: matches the text query but is not
visible to user 1 (created by user 2, unassigned, in a project owned by
user 3 with no members). -/
def c1Task : Task :=
  { id := 5, title := "alpha report", description := "", status := .TODO,
    priority := .LOW, creatorId := 2, assigneeId := none, projectId := 10,
    dueDate := none, estimatedHours := none, actualHours := none,
    completedAt := none, createdAt := 0 }

/-- Project table for the search claim. -/
def c1Projects : List Project := [{ id := 10, ownerId := 3, members := [] }]

/-- Example completed task owned by user 1, with a completion timestamp. -/
def c2Task : Task :=
  { id := 5, title := "t", description := "", status := .COMPLETED,
    priority := .LOW, creatorId := 1, assigneeId := none, projectId := 10,
    dueDate := none, estimatedHours := none, actualHours := none,
    completedAt := some 100, createdAt := 0 }

/-- Project table for the update claim. -/
def c2Projects : List Project := [{ id := 10, ownerId := 3, members := [] }]

/-- Example active user owning a refresh token. -/
def c3User : AuthUser :=
  { id := 1, email := "a@b.c", name := "A", role := "USER", avatar := none,
    isActive := true, passwordHash := "h" }

/-- Example stored, unexpired refresh token row of that user. -/
def c3Token : StoredRefreshToken :=
  { id := 1, token := "t1", userId := 1, expiresAt := 1000 }

/-- Auth database for the rotation claim. -/
def c3Db : AuthDB := { users := [c3User], tokens := [c3Token] }

/-- Overdue example: task due one day before midnight, still to do, owned
by user 1. -/
def c7TodoTask : Task :=
  { id := 1, title := "t", description := "", status := .TODO,
    priority := .LOW, creatorId := 1, assigneeId := none, projectId := 10,
    dueDate := some (-86400000), estimatedHours := none, actualHours := none,
    completedAt := none, createdAt := 0 }

/-- The same task marked completed. -/
def c7DoneTask : Task :=
  { c7TodoTask with status := .COMPLETED, completedAt := some 0 }

/-- The user record signup creates for the mixed-case email example. -/
def c9User : AuthUser :=
  { id := 7, email := "x@y.z", name := "A", role := "USER", avatar := none,
    isActive := true, passwordHash := "pw" }

/-- The token pair signup returns for the mixed-case email example. -/
def c9Tokens : AuthTokens :=
  { accessToken := ⟨7, "x@y.z", "USER"⟩, refreshToken := "tk" }

/-- The database state signup produces for the mixed-case email example. -/
def c9Db : AuthDB :=
  { users := [c9User],
    tokens := [{ id := 8, token := "tk", userId := 7, expiresAt := 604800000 }] }

end TaskApp

namespace BlogApp

/-- Example post of user 1 that is already published (locally, never
pushed to Blogspot: no blogspot subdocument). -/
def c4Post : Post :=
  { userId := 1, title := "t", content := "c", tags := [],
    status := .published, publishedAt := some 100, scheduledFor := none,
    blogspot := none }

/-- Example published post of user 1 without a Blogspot post id. -/
def c5Post : Post :=
  { userId := 1, title := "t", content := "c", tags := [],
    status := .published, publishedAt := some 100, scheduledFor := none,
    blogspot := none }

/-- Example published post of user 2 that does carry a Blogspot post id. -/
def c5BlogspotPost : Post :=
  { userId := 2, title := "t", content := "c", tags := [],
    status := .published, publishedAt := some 100, scheduledFor := none,
    blogspot := some { postId := some "bp1", publishedAt := some 100,
                       url := some "http://u", lastSyncAt := some 100 } }

/-- The configured affiliate link of the replacement example. -/
def c8Link : AffiliateLink := { keyword := "coffee", url := "https://example.com/c" }

end BlogApp

theorem jsCharToLower_toNat (c : Char) (h : 65 ≤ c.toNat ∧ c.toNat ≤ 90) :
    (jsCharToLower c).toNat = c.toNat + 32 := by
  have hv : (c.toNat + 32).isValidChar := Or.inl (by omega)
  rw [jsCharToLower, if_pos h, Char.ofNat, dif_pos hv]
  simp [Char.ofNatAux, Char.toNat, UInt32.toNat, BitVec.toNat_ofNatLt]

theorem jsCharToLower_idem (c : Char) :
    jsCharToLower (jsCharToLower c) = jsCharToLower c := by
  by_cases h : 65 ≤ c.toNat ∧ c.toNat ≤ 90
  · have ht := jsCharToLower_toNat c h
    rw [jsCharToLower, if_neg (by rw [ht]; omega)]
  · have hc : jsCharToLower c = c := by rw [jsCharToLower, if_neg h]
    rw [hc]
    exact hc

theorem jsToLower_idem (s : String) : jsToLower (jsToLower s) = jsToLower s := by
  cases s with
  | mk data =>
    show String.mk ((data.map jsCharToLower).map jsCharToLower) = _
    rw [List.map_map]
    exact congrArg String.mk
      (List.map_congr_left fun c _ => jsCharToLower_idem c)

namespace TaskApp

theorem natCeilDiv_eq_ceil (a b : Nat) (hb : 0 < b) :
    natCeilDiv a b = ⌈(a : ℚ) / (b : ℚ)⌉₊ := by
  have hbq : (0 : ℚ) < (b : ℚ) := by exact_mod_cast hb
  have hdef : a ⌈/⌉ b = natCeilDiv a b := Nat.ceilDiv_eq_add_pred_div a b
  apply le_antisymm
  · rw [← hdef, ceilDiv_le_iff_le_mul hb]
    have h2 : (a : ℚ) ≤ (⌈(a : ℚ) / b⌉₊ : ℚ) * b :=
      (div_le_iff₀ hbq).1 (Nat.le_ceil _)
    have h3 : a ≤ ⌈(a : ℚ) / b⌉₊ * b := by exact_mod_cast h2
    rw [Nat.mul_comm]
    exact h3
  · rw [Nat.ceil_le, div_le_iff₀ hbq]
    have h4 : a ≤ b * (a ⌈/⌉ b) := le_smul_ceilDiv hb
    rw [hdef, Nat.mul_comm] at h4
    exact_mod_cast h4

theorem refreshTokenOp_not_found (db : AuthDB) (tok : String) (now : Int)
    (newTok : String)
    (h : db.tokens.find? (fun r => r.token == tok) = none) :
    (refreshTokenOp db tok now newTok).1 =
      .error ⟨"Invalid refresh token", 401⟩ := by
  simp [refreshTokenOp, h]

/-- C1: with a free-text search filter, getTasks returns tasks that match
the text even when the user may not see them: the where OR member holding
the visibility restriction is overwritten by the search clause, so the
invisible task c1Task is returned for user 1. -/
theorem getTasks_search_drops_visibility :
    (getTasks [c1Task] c1Projects 1 { search := some "alpha" } ⟨0, 0⟩).tasks =
      [c1Task] ∧
    visibleTo c1Projects 1 c1Task = false := ⟨rfl, rfl⟩

/-- C2: an updateTask call that omits the status field on a completed task
leaves the status COMPLETED but sets completedAt to null, because the
incoming undefined status is not equal to the string COMPLETED while the
stored one is. -/
theorem updateTask_statusless_update_clears_completedAt :
    (updateTask c2Projects c2Task { title := some "new title" } 1 200).map
        (fun t => (t.status, t.completedAt)) = .ok (.COMPLETED, none) ∧
    c2Task.status = .COMPLETED ∧ c2Task.completedAt = some 100 :=
  ⟨rfl, rfl, rfl⟩

/-- C3: refreshing with a stored, unexpired token of an active user
returns the new pair and rewrites the stored row to the fresh token, so a
second refresh presenting the old token fails with 401; refreshing with an
unknown token or an expired token also fails with 401 (token uniqueness
and id uniqueness are the database unique constraints). -/
theorem refreshToken_rotation :
    (∀ (db : AuthDB) (tok : String) (now : Int) (newTok : String)
        (st : StoredRefreshToken) (u : AuthUser),
        db.tokens.Pairwise (fun a b => a.token ≠ b.token) →
        db.tokens.find? (fun r => r.token == tok) = some st →
        ¬ st.expiresAt < now →
        db.users.find? (fun v => v.id == st.userId) = some u →
        u.isActive = true →
        newTok ≠ tok →
        (refreshTokenOp db tok now newTok).1 =
          .ok { accessToken := ⟨u.id, u.email, u.role⟩, refreshToken := newTok } ∧
        ∀ (now2 : Int) (newTok2 : String),
          (refreshTokenOp (refreshTokenOp db tok now newTok).2 tok now2 newTok2).1 =
            .error ⟨"Invalid refresh token", 401⟩) ∧
    (∀ (db : AuthDB) (tok : String) (now : Int) (newTok : String),
        db.tokens.find? (fun r => r.token == tok) = none →
        (refreshTokenOp db tok now newTok).1 =
          .error ⟨"Invalid refresh token", 401⟩) ∧
    (∀ (db : AuthDB) (tok : String) (now : Int) (newTok : String)
        (st : StoredRefreshToken),
        db.tokens.find? (fun r => r.token == tok) = some st →
        st.expiresAt < now →
        (refreshTokenOp db tok now newTok).1 =
          .error ⟨"Refresh token expired", 401⟩) := by
  refine ⟨?_, ?_, ?_⟩
  · intro db tok now newTok st u hpw hfind hexp huser hact hnew
    refine ⟨by simp [refreshTokenOp, hfind, hexp, huser, hact], ?_⟩
    intro now2 newTok2
    have hdb2 : (refreshTokenOp db tok now newTok).2.tokens =
        db.tokens.map (fun r =>
          if r.id == st.id then
            { r with token := newTok, expiresAt := now + refreshTtl }
          else r) := by
      simp [refreshTokenOp, hfind, hexp, huser, hact]
    have hstmem : st ∈ db.tokens := List.mem_of_find?_eq_some hfind
    have hsttok : st.token = tok := by
      have := List.find?_some hfind
      simpa using this
    have hnone : (refreshTokenOp db tok now newTok).2.tokens.find?
        (fun r => r.token == tok) = none := by
      rw [hdb2, List.find?_eq_none]
      intro r2 hr2
      rcases List.mem_map.1 hr2 with ⟨r, hrmem, hrfr⟩
      by_cases hid : (r.id == st.id) = true
      · rw [if_pos hid] at hrfr
        subst hrfr
        simpa using hnew
      · rw [if_neg hid] at hrfr
        subst hrfr
        have hrne : r ≠ st := by
          intro hcontra
          exact hid (by rw [hcontra]; simp)
        have hsymm :
            Symmetric (fun (a b : StoredRefreshToken) => a.token ≠ b.token) :=
          fun a b hab => fun hba => hab hba.symm
        have := hpw.forall hsymm hrmem hstmem hrne
        simpa [hsttok] using this
    exact refreshTokenOp_not_found _ _ _ _ hnone
  · intro db tok now newTok hfind
    exact refreshTokenOp_not_found _ _ _ _ hfind
  · intro db tok now newTok st hfind hlt
    simp [refreshTokenOp, hfind, hlt]

/-- C3 witness: the rotation theorem applied to the one-user, one-token
database c3Db with token t1, fresh token t2, and a later replay at time 5
with fresh token t3. -/
theorem refreshToken_rotation_witness :
    (refreshTokenOp c3Db "t1" 0 "t2").1 =
      .ok { accessToken := ⟨1, "a@b.c", "USER"⟩, refreshToken := "t2" } ∧
    (refreshTokenOp (refreshTokenOp c3Db "t1" 0 "t2").2 "t1" 5 "t3").1 =
      .error ⟨"Invalid refresh token", 401⟩ := by
  have h := refreshToken_rotation.1 c3Db "t1" 0 "t2" c3Token c3User
    (by simp [c3Db, c3Token]) (by rfl) (by norm_num [c3Token]) (by rfl)
    (by rfl) (by decide)
  exact ⟨h.1, h.2 5 "t3"⟩

/-- C6: getTasks computes the offset as (page - 1) * limit applied as
drop/take around the filtered list, totalPages as the rational ceiling of
total / limit, hasNextPage as page < totalPages and hasPrevPage as
page > 1; in particular total 47 with limit 20 gives 3 pages, and page 3
has no next page but a previous one. -/
theorem getTasks_pagination_arithmetic :
    (∀ (page limit total : Nat), 0 < limit →
      (mkPagination page limit total).totalPages =
        ⌈(total : ℚ) / (limit : ℚ)⌉₊ ∧
      (mkPagination page limit total).hasNextPage =
        decide (page < (mkPagination page limit total).totalPages) ∧
      (mkPagination page limit total).hasPrevPage = decide (1 < page)) ∧
    (∀ (db : List Task) (projects : List Project) (userId : Nat)
        (f : TaskFilters) (d : DateCtx),
      (getTasks db projects userId f d).tasks =
        ((db.filter (taskMatches projects (buildWhere userId f d))).drop
          ((f.page.getD 1 - 1) * f.limit.getD 20)).take (f.limit.getD 20)) ∧
    (mkPagination 3 20 47).totalPages = 3 ∧
    (mkPagination 3 20 47).hasNextPage = false ∧
    (mkPagination 3 20 47).hasPrevPage = true := by
  refine ⟨?_, ?_, by rfl, by rfl, by rfl⟩
  · intro page limit total hl
    exact ⟨natCeilDiv_eq_ceil total limit hl, rfl, rfl⟩
  · intro db projects userId f d
    rfl

/-- C6 witness: the pagination theorem applied at page 3, limit 20,
total 47. -/
theorem getTasks_pagination_arithmetic_witness :
    0 < 20 ∧
    (mkPagination 3 20 47).totalPages = ⌈(47 : ℚ) / (20 : ℚ)⌉₊ :=
  ⟨by norm_num, (getTasks_pagination_arithmetic.1 3 20 47 (by norm_num)).1⟩

/-- C7: the overdue bucket of getTasks matches exactly the visible tasks
whose due date is strictly before the local midnight anchor and whose
status is neither COMPLETED nor CANCELLED; a task due yesterday with
status TODO is returned and the same task completed is not. -/
theorem overdue_filter_semantics :
    (∀ (projects : List Project) (userId : Nat) (d : DateCtx) (t : Task),
        taskMatches projects (buildWhere userId { dueDate := some .overdue } d) t
            = true ↔
          (visibleTo projects userId t = true ∧
            (∃ due, t.dueDate = some due ∧ due < d.today) ∧
            ¬ (t.status = .COMPLETED ∨ t.status = .CANCELLED))) ∧
    (getTasks [c7TodoTask] [] 1 { dueDate := some .overdue } ⟨0, 0⟩).tasks =
      [c7TodoTask] ∧
    (getTasks [c7DoneTask] [] 1 { dueDate := some .overdue } ⟨0, 0⟩).tasks = [] := by
  refine ⟨?_, by rfl, by rfl⟩
  intro projects userId d t
  cases ht : t.dueDate <;>
    simp [taskMatches, buildWhere, orMatches, statusMatches, dueMatches, ht,
      and_assoc, and_comm, and_left_comm]

/-- C9: login behaves identically on any casing of the email because the
lookup lowercases it and lowercasing is idempotent; signup stores the
lowercased email and its duplicate check is likewise casing-blind. -/
theorem auth_email_case_insensitive :
    (∀ (db : AuthDB) (email password : String)
        (verify : String → String → Bool) (newTokenRowId : Nat)
        (newRefreshToken : String) (now : Int),
        login db email password verify newTokenRowId newRefreshToken now =
          login db (jsToLower email) password verify newTokenRowId
            newRefreshToken now) ∧
    (∀ (db : AuthDB) (d : SignupData) (hash : String → String)
        (newUserId newTokenRowId : Nat) (newRefreshToken : String) (now : Int)
        (u : AuthUser) (tks : AuthTokens) (db2 : AuthDB),
        signup db d hash newUserId newTokenRowId newRefreshToken now =
          .ok (u, tks, db2) → u.email = jsToLower d.email) ∧
    (∀ (db : AuthDB) (d : SignupData) (hash : String → String)
        (newUserId newTokenRowId : Nat) (newRefreshToken : String) (now : Int),
        signup db d hash newUserId newTokenRowId newRefreshToken now =
          signup db { d with email := jsToLower d.email } hash newUserId
            newTokenRowId newRefreshToken now) := by
  refine ⟨?_, ?_, ?_⟩
  · intro db email password verify newTokenRowId newRefreshToken now
    simp [login, findUserByLoweredEmail, jsToLower_idem]
  · intro db d hash newUserId newTokenRowId newRefreshToken now u tks db2 h
    unfold signup at h
    cases hf : findUserByLoweredEmail db d.email with
    | some v => rw [hf] at h; simp at h
    | none =>
        rw [hf] at h
        simp at h
        rw [← h.1]
  · intro db d hash newUserId newTokenRowId newRefreshToken now
    simp [signup, findUserByLoweredEmail, jsToLower_idem]

/-- C9 witness: signing the mixed-case email X@Y.Z up against the empty
database stores it lowercased. -/
theorem auth_email_case_insensitive_witness :
    c9User.email = jsToLower "X@Y.Z" :=
  auth_email_case_insensitive.2.1 { users := [], tokens := [] }
    { name := "A", email := "X@Y.Z", password := "pw" } (fun p => p) 7 8 "tk" 0
    c9User c9Tokens c9Db (by rfl)

end TaskApp

namespace BlogApp

theorem presave_status (m : Bool) (p : Post) (now : Int) :
    (presavePublishedAt m p now).status = p.status := by
  unfold presavePublishedAt
  split <;> rfl

/-- C4 counterexample: the Blogspot publish proxy stamps publishedAt anew
on a post that is already published with an earlier timestamp, so
publishedAt is not set exactly once. -/
theorem blogspotPublish_restamps_publishedAt :
    c4Post.status = .published ∧
    c4Post.publishedAt = some 100 ∧
    (blogspotPublishUpdate c4Post 200 "bp1" 150 "http://u").publishedAt =
      some 200 := ⟨rfl, rfl, by rfl⟩

/-- C4 amended: a plain save never overwrites an existing publishedAt (the
hook only stamps it when it is unset), and the publish endpoint refuses a
post that is already published; but the Blogspot publish proxy stamps the
current time unconditionally and unpublish clears publishedAt, so an
unpublish followed by a republish, or a Blogspot publish of an
already-published post, assigns a second, different timestamp. -/
theorem publishedAt_stamping :
    (∀ (m : Bool) (p : Post) (now t : Int), p.publishedAt = some t →
        (presavePublishedAt m p now).publishedAt = some t) ∧
    (∀ (uid : Nat) (p : Post) (now : Int), p.userId = uid →
        p.status = .published →
        publishRoute uid p now = .error ⟨"Post is already published", 400⟩) ∧
    (∀ (p : Post) (now : Int) (pid : String) (ppub : Int) (url : String),
        (blogspotPublishUpdate p now pid ppub url).publishedAt = some now) ∧
    (∀ (uid : Nat) (p : Post) (now : Int) (q : Post),
        unpublishRoute uid p now = .ok q → q.publishedAt = none) := by
  refine ⟨?_, ?_, ?_, ?_⟩
  · intro m p now t h
    by_cases hc : (m && p.status == .published && p.publishedAt == none) = true
    · exfalso
      rw [h] at hc
      simp at hc
    · unfold presavePublishedAt
      rw [if_neg hc]
      exact h
  · intro uid p now h1 h2
    simp [publishRoute, h1, h2]
  · intro p now pid ppub url
    simp [blogspotPublishUpdate, savePost, presavePublishedAt]
  · intro uid p now q h
    by_cases h1 : (!(p.userId == uid)) = true
    · simp [unpublishRoute, h1] at h
    · by_cases h2 : (!(p.status == .published)) = true
      · simp [unpublishRoute, h1, h2] at h
      · simp [unpublishRoute, h1, h2, savePost, presavePublishedAt] at h
        rw [← h]

/-- C4 witness: the amended stamping theorem applied to a save of the
already-published c4Post, whose timestamp 100 is preserved. -/
theorem publishedAt_stamping_witness :
    (presavePublishedAt true c4Post 999).publishedAt = some 100 :=
  publishedAt_stamping.1 true c4Post 999 100 rfl

/-- C5 counterexample: the owner deletes a published post that carries no
Blogspot post id; the delete guard only fires when both conditions hold,
so the published post is removed. -/
theorem deleteRoute_published_without_blogspot_deleted :
    deleteRoute 1 c5Post = .deleted ∧ c5Post.status = .published := ⟨rfl, rfl⟩

/-- C5 amended: an owner delete request is rejected with 400 exactly when
the post is published and carries a truthy Blogspot post id; otherwise,
published or not, the post is deleted. -/
theorem deleteRoute_reject_condition (requesterId : Nat) (p : Post)
    (howner : p.userId = requesterId) :
    (deleteRoute requesterId p =
        .rejected ⟨"Cannot delete published post. Unpublish it first.", 400⟩ ↔
      p.status = .published ∧
        jsTruthyStr (p.blogspot.bind (fun b => b.postId)) = true) ∧
    (deleteRoute requesterId p = .deleted ↔
      ¬ (p.status = .published ∧
        jsTruthyStr (p.blogspot.bind (fun b => b.postId)) = true)) := by
  by_cases hcond : (p.status == .published &&
      jsTruthyStr (p.blogspot.bind (fun b => b.postId))) = true <;>
    simp [deleteRoute, howner, hcond] <;> simp_all [beq_iff_eq]

/-- C5 witness: the delete condition theorem applied to the published
post c5BlogspotPost that does carry a Blogspot post id, owned by user 2. -/
theorem deleteRoute_reject_condition_witness :
    (deleteRoute 2 c5BlogspotPost =
        .rejected ⟨"Cannot delete published post. Unpublish it first.", 400⟩ ↔
      c5BlogspotPost.status = .published ∧
        jsTruthyStr (c5BlogspotPost.blogspot.bind (fun b => b.postId)) = true) ∧
    (deleteRoute 2 c5BlogspotPost = .deleted ↔
      ¬ (c5BlogspotPost.status = .published ∧
        jsTruthyStr (c5BlogspotPost.blogspot.bind (fun b => b.postId)) = true)) :=
  deleteRoute_reject_condition 2 c5BlogspotPost rfl

/-- C8: the affiliate replacement wraps the single word-boundary
occurrence of the keyword in the anchor tag, matches case-insensitively,
and leaves occurrences inside longer words (decaffeinated, coffees)
untouched. -/
theorem affiliate_keyword_replacement :
    applyAffiliateLinks [c8Link] "I love coffee" =
      "I love <a href=\"https://example.com/c\" target=\"_blank\" rel=\"nofollow sponsored\">coffee</a>" ∧
    applyAffiliateLinks [c8Link] "I love COFFEE" =
      "I love <a href=\"https://example.com/c\" target=\"_blank\" rel=\"nofollow sponsored\">coffee</a>" ∧
    applyAffiliateLinks [c8Link] "totally decaffeinated coffees" =
      "totally decaffeinated coffees" := ⟨by rfl, by rfl, by rfl⟩

/-- C10: a post built by the create endpoint is never published: it is
scheduled exactly when a strictly future scheduledFor is supplied and
draft otherwise, and the save hook does not interfere. -/
theorem createPost_status_never_published (userId : Nat)
    (title content : String) (tags : List String) (scheduledFor : Option Int)
    (now : Int) :
    ¬ (createPost userId title content tags scheduledFor now).status = .published ∧
    ((createPost userId title content tags scheduledFor now).status = .scheduled ↔
      ∃ t, scheduledFor = some t ∧ now < t) ∧
    ((createPost userId title content tags scheduledFor now).status = .draft ↔
      ¬ ∃ t, scheduledFor = some t ∧ now < t) := by
  have hst : (createPost userId title content tags scheduledFor now).status =
      createPostStatus scheduledFor now := presave_status _ _ _
  rw [hst]
  cases scheduledFor with
  | none => simp [createPostStatus]
  | some t =>
      by_cases h : t > now <;> simp [createPostStatus, h]

end BlogApp
